import Mathlib

/-!
Verification development for the DepthWeaver depth-displacement rendering
pipeline (`src/components/depth-weaver-scene.tsx`).

The embedding models:
* the baking fragment shader (`bakingFragmentShader`) over real numbers,
  with textures abstracted as functions from UV coordinates to texel values;
* the interaction handlers `onPointerMove` and `handleDeviceOrientation`;
* the CPU vertex displacement loop of `handleExport`;
* the allocation/disposal trace of `handleExport`;
* the React-effect recomputation policy for the bake pass.
-/

namespace DepthWeaver

/-! ## GLSL / three.js numeric primitives -/

/-- GLSL `clamp(x, lo, hi) = min(max(x, lo), hi)`. -/
noncomputable def glslClamp (x lo hi : ℝ) : ℝ := min (max x lo) hi

/-- GLSL `sign`: `1` for positive, `-1` for negative, `0` for zero. -/
noncomputable def glslSign (x : ℝ) : ℝ := if 0 < x then 1 else if x < 0 then -1 else 0

/-- GLSL `smoothstep(e0, e1, x)`: Hermite ramp of the clamped normalized input. -/
noncomputable def smoothstep (e0 e1 x : ℝ) : ℝ :=
  let t := glslClamp ((x - e0) / (e1 - e0)) 0 1
  t * t * (3 - 2 * t)

/-- `THREE.MathUtils.clamp(value, min, max) = Math.max(min, Math.min(max, value))`. -/
noncomputable def threeClamp (value lo hi : ℝ) : ℝ := max lo (min hi value)

/-- `THREE.MathUtils.degToRad(degrees) = degrees * (π / 180)`. -/
noncomputable def degToRad (degrees : ℝ) : ℝ := degrees * (Real.pi / 180)

/-! ## RGBA texel values (`vec4`) -/

/-- A GLSL `vec4` RGBA color value. -/
structure Vec4 where
  r : ℝ
  g : ℝ
  b : ℝ
  a : ℝ

/-- Componentwise `vec4` addition. -/
noncomputable def v4add (u v : Vec4) : Vec4 := ⟨u.r + v.r, u.g + v.g, u.b + v.b, u.a + v.a⟩

/-- Scalar times `vec4`. -/
noncomputable def v4scale (c : ℝ) (v : Vec4) : Vec4 := ⟨c * v.r, c * v.g, c * v.b, c * v.a⟩

/-- `vec4(0.0)`. -/
def v4zero : Vec4 := ⟨0, 0, 0, 0⟩

/-- Sum of a list of `vec4` values. -/
noncomputable def v4sum (l : List Vec4) : Vec4 := l.foldr v4add v4zero

/-- A color texture, abstracted as a function from UV coordinates to RGBA texels
(the GPU sampler `texture2D(uTexture, uv)`). -/
abbrev Tex4 := ℝ × ℝ → Vec4

/-- A depth texture, abstracted as its red channel: the shader helper
`getDepth(uv) = texture2D(uDepthMap, uv).r`. -/
abbrev Tex1 := ℝ × ℝ → ℝ

/-! ## The baking fragment shader (`bakingFragmentShader`)

The 9×9 blur loop `for (int x = -4; x <= 4; x++) for (int y = -4; y <= 4; y++)`
iterates over `tapPairs` in source order (outer `x`, inner `y`). -/

/-- Loop counter values `-4 .. 4`. -/
def tapRange : List ℤ := [-4, -3, -2, -1, 0, 1, 2, 3, 4]

/-- All 81 `(x, y)` tap index pairs, in source iteration order. -/
def tapPairs : List (ℤ × ℤ) := tapRange.flatMap fun x => tapRange.map fun y => (x, y)

/-- The UV coordinate sampled by tap `p`:
`vUv + vec2(float(x) * pixelSizeX * blurStrength, float(y) * pixelSizeY * blurStrength)`. -/
noncomputable def tapSampleUV (blurStrength pX pY : ℝ) (vUv : ℝ × ℝ) (p : ℤ × ℤ) : ℝ × ℝ :=
  (vUv.1 + (p.1 : ℝ) * pX * blurStrength, vUv.2 + (p.2 : ℝ) * pY * blurStrength)

/-- The weight of tap `p`:
`exp(-(float(x*x + y*y) / (2.0 * 16.0)))` attenuated by
`clamp(1.0 - (uBlurOffset * sign(sampleDepth - centerDepth)), 0.0, 1.0)`. -/
noncomputable def tapWeight (dep : Tex1) (uBlurOffset blurStrength pX pY : ℝ)
    (vUv : ℝ × ℝ) (p : ℤ × ℤ) : ℝ :=
  let sampleDepth := dep (tapSampleUV blurStrength pX pY vUv p)
  let depthDiff := sampleDepth - dep vUv
  let w := Real.exp (-(((p.1 * p.1 + p.2 * p.2 : ℤ) : ℝ) / (2 * 16)))
  let depthWeight := 1 - uBlurOffset * glslSign depthDiff
  w * glslClamp depthWeight 0 1

/-- The accumulation loop of the blur branch: returns
`(blurredColor, totalWeight)` exactly as accumulated by the shader's nested
`for` loops starting from `vec4(0.0)` and `0.0`. -/
noncomputable def blurLoop (tex : Tex4) (dep : Tex1) (uBlurOffset blurStrength pX pY : ℝ)
    (vUv : ℝ × ℝ) : Vec4 × ℝ :=
  tapPairs.foldl
    (fun acc p =>
      (v4add acc.1 (v4scale (tapWeight dep uBlurOffset blurStrength pX pY vUv p)
          (tex (tapSampleUV blurStrength pX pY vUv p))),
        acc.2 + tapWeight dep uBlurOffset blurStrength pX pY vUv p))
    (v4zero, 0)

/-- The edge strength computed by the shader: central depth differences over one
texel in each axis, Euclidean norm, then `smoothstep(0.0, 0.05, ·)`. -/
noncomputable def bakeGradient (dep : Tex1) (uResolution : ℝ × ℝ) (vUv : ℝ × ℝ) : ℝ :=
  let pixelSizeX := 1 / uResolution.1
  let pixelSizeY := 1 / uResolution.2
  let depthN := dep (vUv.1, vUv.2 + pixelSizeY)
  let depthS := dep (vUv.1, vUv.2 - pixelSizeY)
  let depthE := dep (vUv.1 + pixelSizeX, vUv.2)
  let depthW := dep (vUv.1 - pixelSizeX, vUv.2)
  let dx := depthE - depthW
  let dy := depthN - depthS
  smoothstep 0 0.05 (Real.sqrt (dx * dx + dy * dy))

/-- The `main` function of `bakingFragmentShader`. `uRenderMode = 0` is blur
mode, `1` is fill mode; `none` models a `discard`ed fragment. -/
noncomputable def bakeFragment (tex : Tex4) (dep : Tex1)
    (uBlurIntensity uBlurOffset : ℝ) (uResolution : ℝ × ℝ) (uRenderMode : ℤ)
    (vUv : ℝ × ℝ) : Option Vec4 :=
  let pixelSizeX := 1 / uResolution.1
  let pixelSizeY := 1 / uResolution.2
  let gradient := bakeGradient dep uResolution vUv
  if 0.1 < gradient then
    if uRenderMode = 0 then
      let blurStrength := gradient * uBlurIntensity
      let acc := blurLoop tex dep uBlurOffset blurStrength pixelSizeX pixelSizeY vUv
      if 0 < acc.2 then some (v4scale (1 / acc.2) acc.1) else some (tex vUv)
    else
      none
  else
    some (tex vUv)

/-! ## Interaction controller (`onPointerMove`, `handleDeviceOrientation`) -/

/-- The mutable state read and written by `onPointerMove`: the mesh rotation
(`meshRef.current.rotation.x/y`) and `previousPointerPosition.current`. -/
structure PointerState where
  rotX : ℝ
  rotY : ℝ
  prevX : ℝ
  prevY : ℝ

/-- The `onPointerMove` handler. Early-returns (state unchanged) when not
dragging, the mesh is absent, or sensor mode is active; otherwise clamps both
rotation axes to `±maxAngle` after adding `0.005`-scaled pointer deltas. -/
noncomputable def onPointerMove (isDragging meshPresent useSensor : Bool)
    (maxAngle clientX clientY : ℝ) (s : PointerState) : PointerState :=
  if !isDragging || !meshPresent || useSensor then s
  else
    let deltaX := clientX - s.prevX
    let deltaY := clientY - s.prevY
    { rotY := threeClamp (s.rotY + deltaX * 0.005) (-maxAngle) maxAngle
      rotX := threeClamp (s.rotX + deltaY * 0.005) (-maxAngle) maxAngle
      prevX := clientX
      prevY := clientY }

/-- The mutable state read and written by `handleDeviceOrientation`: the mesh
rotation and `initialOrientationRef.current` (the zero-reference reading). -/
structure OrientState where
  initBeta : Option ℝ
  initGamma : Option ℝ
  rotX : ℝ
  rotY : ℝ

/-- JavaScript falsiness of a nullable number: the guard `!event.beta` is true
when the value is `null` or exactly `0`. -/
def jsFalsy (o : Option ℝ) : Prop := o = none ∨ o = some 0

noncomputable instance (o : Option ℝ) : Decidable (jsFalsy o) := by
  unfold jsFalsy; infer_instance

open Classical in
/-- The `handleDeviceOrientation` handler. Early-returns when the mesh is
absent or either raw reading is falsy (`null` or `0`); otherwise captures the
zero-reference on first use and clamps both rotation axes built from the
`-0.5`-scaled, degree-to-radian-converted deltas. -/
noncomputable def handleDeviceOrientation (meshPresent : Bool) (maxAngle : ℝ)
    (eventBeta eventGamma : Option ℝ) (s : OrientState) : OrientState :=
  if !meshPresent || jsFalsy eventBeta || jsFalsy eventGamma then s
  else
    let b := eventBeta.getD 0
    let g := eventGamma.getD 0
    let init : ℝ × ℝ :=
      match s.initBeta, s.initGamma with
      | some ib, some ig => (ib, ig)
      | _, _ => (b, g)
    let beta := b - init.1
    let gamma := g - init.2
    { initBeta := some init.1
      initGamma := some init.2
      rotX := threeClamp (degToRad (beta * (-0.5))) (-maxAngle) maxAngle
      rotY := threeClamp (degToRad (gamma * (-0.5))) (-maxAngle) maxAngle }

/-! ## Export: CPU vertex displacement (`handleExport`, lines 277-286)

The depth image is modelled as its raw RGBA byte array `data : ℕ → ℕ` together
with pixel dimensions, as produced by `getImageData`. -/

/-- The per-vertex body of the export displacement loop: flip `v`, floor the
UV scaled by `(dimension - 1)`, read the red byte at the resulting pixel,
and add `depth / 255 * depthMultiplier` to the original Z. -/
noncomputable def displaceVertexZ (data : ℕ → ℕ) (depthWidth depthHeight : ℕ)
    (depthMultiplier : ℝ) (origZ u v : ℝ) : ℝ :=
  let v' := 1 - v
  let pixelX := ⌊u * ((depthWidth - 1 : ℕ) : ℝ)⌋
  let pixelY := ⌊v' * ((depthHeight - 1 : ℕ) : ℝ)⌋
  let pixelIndex := (pixelY * (depthWidth : ℤ) + pixelX) * 4
  let depth := (data pixelIndex.toNat : ℝ) / 255
  let displacement := depth * depthMultiplier
  origZ + displacement

/-- The whole displacement loop over a geometry given as a list of
`(originalZ, u, v)` vertex attributes; returns the new Z coordinates. -/
noncomputable def exportDisplace (data : ℕ → ℕ) (depthWidth depthHeight : ℕ)
    (depthMultiplier : ℝ) (verts : List (ℝ × ℝ × ℝ)) : List ℝ :=
  verts.map fun t => displaceVertexZ data depthWidth depthHeight depthMultiplier t.1 t.2.1 t.2.2

/-! ## Export: control flow and resource trace (`handleExport`) -/

/-- The temporary resources created by `handleExport`. -/
inductive ExpResource where
  | tempRenderTarget
  | tempBakingMaterial
  | bakingGeometry
  | clonedGeometry
  | canvasTexture
  | exportMaterial
deriving DecidableEq, Repr

/-- The fallible steps of `handleExport`, in execution order: the depth image
load (`getDepthDataFromImage`), the 2D canvas context acquisition, and the
GLTF exporter parse callback. -/
inductive ExpStep where
  | depthLoad
  | canvas2d
  | exporterParse
deriving DecidableEq, Repr

/-- The outcome of a `handleExport` call: the synchronous throw of the guard,
a later rejection, or successful resolution. -/
inductive ExpOutcome where
  | rejectedEarly (msg : String)
  | rejected (msg : String)
  | resolved
deriving DecidableEq, Repr

/-- Presence of the refs tested by the `handleExport` guard. -/
structure SceneRefs where
  mesh : Bool
  renderer : Bool
  scene : Bool
  camera : Bool
  bakedTarget : Bool
deriving DecidableEq, Repr

/-- The result of a `handleExport` run: its outcome and the temporary
resources it allocated and disposed, in order. -/
structure ExportRun where
  outcome : ExpOutcome
  allocated : List ExpResource
  disposed : List ExpResource
deriving DecidableEq, Repr

/-- The TS render modes `'blur' | 'fill'`. -/
inductive RenderMode where
  | blur
  | fill
deriving DecidableEq, Repr

/-- The control-flow and resource trace of `handleExport`, parameterized by
which fallible step (if any) fails. `renderMode` only reaches the shader as the
`uRenderMode` uniform of the cloned baking material; it takes no part in the
guard or in any branch of the export control flow, so the trace is the same for
both modes. Allocation/disposal order follows the source: the render target,
cloned baking material and plane geometry are created, the bake is rendered,
the geometry and material are disposed; then the depth image is loaded, the
geometry cloned and displaced, the pixels read back, the canvas texture built,
the render target disposed; the exporter callbacks dispose the canvas texture,
export material and cloned geometry on both success and failure. -/
def handleExport (refs : SceneRefs) (format : String) (renderMode : RenderMode)
    (failAt : Option ExpStep) : ExportRun :=
  if !refs.mesh || !refs.renderer || !refs.scene || !refs.camera || !refs.bakedTarget
      || format ≠ "glb" then
    { outcome := .rejectedEarly "Export is not ready or format is not supported."
      allocated := []
      disposed := [] }
  else
    let _ := renderMode
    let alloc1 : List ExpResource := [.tempRenderTarget, .tempBakingMaterial, .bakingGeometry]
    let disp1 : List ExpResource := [.bakingGeometry, .tempBakingMaterial]
    if failAt = some .depthLoad then
      { outcome := .rejected "depth image load failed"
        allocated := alloc1
        disposed := disp1 }
    else
      let alloc2 := alloc1 ++ [.clonedGeometry]
      if failAt = some .canvas2d then
        { outcome := .rejected "Failed to get 2d context from canvas"
          allocated := alloc2
          disposed := disp1 }
      else
        let alloc3 := alloc2 ++ [.canvasTexture]
        let disp2 := disp1 ++ [.tempRenderTarget]
        let alloc4 := alloc3 ++ [.exportMaterial]
        let disp3 := disp2 ++ [.canvasTexture, .exportMaterial, .clonedGeometry]
        if failAt = some .exporterParse then
          { outcome := .rejected "Failed to export GLB."
            allocated := alloc4
            disposed := disp3 }
        else
          { outcome := .resolved
            allocated := alloc4
            disposed := disp3 }

/-- Resources allocated by a run but never disposed by it. -/
def leakedResources (r : ExportRun) : List ExpResource :=
  r.allocated.filter fun a => ¬ a ∈ r.disposed

/-- A `SceneRefs` value with every ref present (a fully initialized scene). -/
def allRefs : SceneRefs := ⟨true, true, true, true, true⟩

/-! ## React effect model: when the bake pass re-runs

Models the parameter-driven effects of the scene component on an initialized
scene: the uniform/camera effect (deps `depthMultiplier, cameraDistance,
orthographicZoom, ...`), the `meshDetail` effect, the bake effect (deps
`blurIntensity, blurOffset, renderMode`) and the camera-type effect (deps
`cameraType, cameraDistance, orthographicZoom`). Parameters are modelled as
rationals; the baked render target's contents are determined by the uniforms
the bake pass last ran with (the color/depth textures and resolution are fixed
per scene instance), so they are modelled by that uniform triple. -/

/-- The TS camera types `'perspective' | 'orthographic'`. -/
inductive CameraType where
  | perspective
  | orthographic
deriving DecidableEq, Repr

/-- The live-mutable props consumed by the effects under study. -/
structure Params where
  depthMultiplier : ℚ
  cameraDistance : ℚ
  orthographicZoom : ℚ
  meshDetail : ℕ
  blurIntensity : ℚ
  blurOffset : ℚ
  renderMode : RenderMode
  cameraType : CameraType
deriving DecidableEq, Repr

/-- The uniforms the bake pass last ran with; these determine the baked
texture's contents for a fixed scene instance. -/
structure BakeInputs where
  intensity : ℚ
  offset : ℚ
  mode : RenderMode
deriving DecidableEq, Repr

/-- The scene objects the effects mutate. -/
structure SceneState where
  uDepthMultiplier : ℚ
  cameraPos : ℚ
  cameraZoom : ℚ
  camKind : CameraType
  geometrySegments : ℕ
  uBlurIntensity : ℚ
  uBlurOffset : ℚ
  uRenderMode : RenderMode
  baked : BakeInputs
  bakeCount : ℕ
  rotX : ℚ
  rotY : ℚ
deriving DecidableEq, Repr

/-- `runBakePass`: renders the baking quad into the baked render target, which
overwrites its contents with the output for the current baking uniforms. -/
def runBakePass (s : SceneState) : SceneState :=
  { s with baked := ⟨s.uBlurIntensity, s.uBlurOffset, s.uRenderMode⟩
           bakeCount := s.bakeCount + 1 }

/-- The uniform/camera effect (deps `depthMultiplier, cameraDistance,
orthographicZoom, backgroundMode, backgroundColor`): mutates the live-material
uniform and the current camera's distance or zoom in place. -/
def effectUniforms (old new : Params) (s : SceneState) : SceneState :=
  if old.depthMultiplier ≠ new.depthMultiplier ∨ old.cameraDistance ≠ new.cameraDistance
      ∨ old.orthographicZoom ≠ new.orthographicZoom then
    { s with uDepthMultiplier := new.depthMultiplier
             cameraPos := if s.camKind = .perspective then new.cameraDistance else s.cameraPos
             cameraZoom := if s.camKind = .perspective then s.cameraZoom
                           else new.orthographicZoom }
  else s

/-- The `meshDetail` effect: rebuilds the plane geometry when the requested
segment count differs from the current geometry's. -/
def effectMeshDetail (old new : Params) (s : SceneState) : SceneState :=
  if old.meshDetail ≠ new.meshDetail ∧ s.geometrySegments ≠ new.meshDetail then
    { s with geometrySegments := new.meshDetail }
  else s

/-- The bake effect (deps `blurIntensity, blurOffset, renderMode`): writes the
three baking uniforms and re-runs the bake pass. -/
def effectBake (old new : Params) (s : SceneState) : SceneState :=
  if old.blurIntensity ≠ new.blurIntensity ∨ old.blurOffset ≠ new.blurOffset
      ∨ old.renderMode ≠ new.renderMode then
    runBakePass { s with uBlurIntensity := new.blurIntensity
                         uBlurOffset := new.blurOffset
                         uRenderMode := new.renderMode }
  else s

/-- The camera-type effect (deps `cameraType, cameraDistance,
orthographicZoom`): early-returns when the camera already has the requested
kind, otherwise rebuilds the camera object. -/
def effectCameraType (old new : Params) (s : SceneState) : SceneState :=
  if (old.cameraType ≠ new.cameraType ∨ old.cameraDistance ≠ new.cameraDistance
      ∨ old.orthographicZoom ≠ new.orthographicZoom) ∧ s.camKind ≠ new.cameraType then
    { s with camKind := new.cameraType
             cameraPos := if new.cameraType = .perspective then new.cameraDistance else 6
             cameraZoom := if new.cameraType = .perspective then s.cameraZoom
                           else new.orthographicZoom }
  else s

/-- One commit of changed props against an initialized scene: each effect runs
exactly when one of its dependencies changed, in source order. -/
def applyParamChange (old new : Params) (s : SceneState) : SceneState :=
  effectCameraType old new (effectBake old new (effectMeshDetail old new (effectUniforms old new s)))

/-- A rotation update on the scene state (pointer drag or sensor reading):
the handlers write only the mesh rotation and request a re-render. -/
def applyRotation (s : SceneState) (newRotX newRotY : ℚ) : SceneState :=
  { s with rotX := newRotX, rotY := newRotY }

/-! ## Spec-side formulation of the blur branch (for the refinement claim)

These definitions transcribe the specification's words for the blur-mode
convolution: a Gaussian falloff `exp(-(dx² + dy²)/(2·16))` per tap, re-weighted
by the bias term `1 − blurOffset·sign(depthDiff)` clamped to `[0,1]`,
normalized by the total accumulated weight, with a fallback to the unmodified
source color when the total weight is zero. -/

/-- Spec wording: Gaussian falloff based on tap distance, `exp(-(dx²+dy²)/(2·16))`. -/
noncomputable def specGaussian (dxi dyi : ℤ) : ℝ :=
  Real.exp (-(((dxi : ℝ) ^ 2 + (dyi : ℝ) ^ 2) / (2 * 16)))

/-- Spec wording: bias term `1 − blurOffset·sign(depthDiff)`, clamped to `[0,1]`. -/
noncomputable def specBias (blurOffset depthDiff : ℝ) : ℝ :=
  glslClamp (1 - blurOffset * glslSign depthDiff) 0 1

/-- Spec wording: each tap's weight is the Gaussian falloff times the bias term
applied to the difference between the tap's depth sample and the center depth. -/
noncomputable def specTapWeight (dep : Tex1) (blurOffset blurStrength pX pY : ℝ)
    (uv : ℝ × ℝ) (p : ℤ × ℤ) : ℝ :=
  specGaussian p.1 p.2 *
    specBias blurOffset (dep (tapSampleUV blurStrength pX pY uv p) - dep uv)

/-- Spec wording for the whole blur branch: accumulate weighted taps over the
9×9 neighborhood, normalize by total accumulated weight, and fall back to the
unmodified source color if the total weight is zero. -/
noncomputable def specBlurResult (tex : Tex4) (dep : Tex1)
    (blurOffset blurStrength pX pY : ℝ) (uv : ℝ × ℝ) : Vec4 :=
  let totalW := (tapPairs.map (specTapWeight dep blurOffset blurStrength pX pY uv)).sum
  if totalW = 0 then tex uv
  else
    v4scale (1 / totalW)
      (v4sum (tapPairs.map fun p =>
        v4scale (specTapWeight dep blurOffset blurStrength pX pY uv p)
          (tex (tapSampleUV blurStrength pX pY uv p))))

/-! ## Vec4 algebra -/

theorem v4add_zero (v : Vec4) : v4add v v4zero = v := by
  cases v; simp [v4add, v4zero]

theorem v4zero_add (v : Vec4) : v4add v4zero v = v := by
  cases v; simp [v4add, v4zero]

theorem v4add_assoc (u v w : Vec4) : v4add (v4add u v) w = v4add u (v4add v w) := by
  cases u; cases v; cases w; simp [v4add, add_assoc]

theorem v4scale_zero (v : Vec4) : v4scale 0 v = v4zero := by
  cases v; simp [v4scale, v4zero]

theorem v4scale_one (v : Vec4) : v4scale 1 v = v := by
  cases v; simp [v4scale]

theorem v4scale_scale (c d : ℝ) (v : Vec4) : v4scale c (v4scale d v) = v4scale (c * d) v := by
  cases v; simp [v4scale, mul_assoc]

theorem v4scale_add_left (c d : ℝ) (v : Vec4) :
    v4scale (c + d) v = v4add (v4scale c v) (v4scale d v) := by
  cases v; simp [v4scale, v4add, add_mul]

theorem v4sum_cons (x : Vec4) (l : List Vec4) : v4sum (x :: l) = v4add x (v4sum l) := rfl

theorem v4sum_map_scale {α : Type} (W : α → ℝ) (v : Vec4) (l : List α) :
    v4sum (l.map fun p => v4scale (W p) v) = v4scale ((l.map W).sum) v := by
  induction l with
  | nil => simp [v4sum, v4scale_zero]
  | cons a t ih =>
      simp only [List.map_cons, v4sum_cons, List.sum_cons, ih, v4scale_add_left]

/-! ## The accumulation loop as a pair of sums -/

theorem foldl_pair_sum {α : Type} (F : α → Vec4) (W : α → ℝ) :
    ∀ (l : List α) (c : Vec4) (w : ℝ),
      l.foldl (fun acc p => (v4add acc.1 (F p), acc.2 + W p)) (c, w)
        = (v4add c (v4sum (l.map F)), w + (l.map W).sum) := by
  intro l
  induction l with
  | nil => intro c w; simp [v4sum, v4add_zero]
  | cons a t ih =>
      intro c w
      simp only [List.foldl_cons, List.map_cons, v4sum_cons, List.sum_cons]
      rw [ih]
      rw [v4add_assoc, add_assoc]

theorem blurLoop_eq (tex : Tex4) (dep : Tex1) (uBlurOffset blurStrength pX pY : ℝ)
    (vUv : ℝ × ℝ) :
    blurLoop tex dep uBlurOffset blurStrength pX pY vUv
      = (v4sum (tapPairs.map fun p =>
            v4scale (tapWeight dep uBlurOffset blurStrength pX pY vUv p)
              (tex (tapSampleUV blurStrength pX pY vUv p))),
         (tapPairs.map (tapWeight dep uBlurOffset blurStrength pX pY vUv)).sum) := by
  calc blurLoop tex dep uBlurOffset blurStrength pX pY vUv
      = (v4add v4zero (v4sum (tapPairs.map fun p =>
            v4scale (tapWeight dep uBlurOffset blurStrength pX pY vUv p)
              (tex (tapSampleUV blurStrength pX pY vUv p)))),
         0 + (tapPairs.map (tapWeight dep uBlurOffset blurStrength pX pY vUv)).sum) :=
        foldl_pair_sum _ _ tapPairs v4zero 0
    _ = _ := by rw [v4zero_add, zero_add]

/-! ## Tap weight facts -/

theorem glslClamp01_nonneg (x : ℝ) : 0 ≤ glslClamp x 0 1 :=
  le_min (le_max_right x 0) zero_le_one

theorem tapWeight_nonneg (dep : Tex1) (uBlurOffset blurStrength pX pY : ℝ)
    (vUv : ℝ × ℝ) (p : ℤ × ℤ) : 0 ≤ tapWeight dep uBlurOffset blurStrength pX pY vUv p := by
  unfold tapWeight
  exact mul_nonneg (Real.exp_pos _).le (glslClamp01_nonneg _)

theorem glslSign_zero : glslSign 0 = 0 := by
  unfold glslSign; norm_num

theorem tapWeight_center (dep : Tex1) (uBlurOffset blurStrength pX pY : ℝ)
    (vUv : ℝ × ℝ) : tapWeight dep uBlurOffset blurStrength pX pY vUv (0, 0) = 1 := by
  unfold tapWeight tapSampleUV
  simp only [Int.cast_zero, zero_mul, add_zero, mul_zero, Int.cast_ofNat]
  norm_num [glslSign_zero, glslClamp]

theorem mem_tapPairs_center : ((0, 0) : ℤ × ℤ) ∈ tapPairs := by decide

theorem one_le_blurLoop_snd (tex : Tex4) (dep : Tex1)
    (uBlurOffset blurStrength pX pY : ℝ) (vUv : ℝ × ℝ) :
    1 ≤ (blurLoop tex dep uBlurOffset blurStrength pX pY vUv).2 := by
  rw [blurLoop_eq]
  have hmem : tapWeight dep uBlurOffset blurStrength pX pY vUv (0, 0)
      ∈ tapPairs.map (tapWeight dep uBlurOffset blurStrength pX pY vUv) :=
    List.mem_map_of_mem _ mem_tapPairs_center
  have hle := List.single_le_sum (l := tapPairs.map (tapWeight dep uBlurOffset blurStrength pX pY vUv))
    (fun x hx => by
      obtain ⟨p, _, rfl⟩ := List.mem_map.1 hx
      exact tapWeight_nonneg dep uBlurOffset blurStrength pX pY vUv p) _ hmem
  rw [tapWeight_center] at hle
  exact hle

/-! ## Concrete textures for the end-to-end bake scenario -/

/-- A uniformly white color texture (the 2×2 all-white test image). -/
noncomputable def whiteTex : Tex4 := fun _ => ⟨1, 1, 1, 1⟩

/-- The 2×2 depth map pixel values `[0, 255, 0, 255]`, row-major. -/
def depthValues2x2 : List ℕ := [0, 255, 0, 255]

/-- Nearest-neighbor model of sampling a single-channel image given as
row-major pixel values: scale UV by the pixel dimensions, floor, clamp to the
image bounds, and normalize the byte to `[0, 1]`. -/
noncomputable def sampleNearest (data : List ℕ) (w h : ℕ) (uv : ℝ × ℝ) : ℝ :=
  let px := min (⌊uv.1 * (w : ℝ)⌋.toNat) (w - 1)
  let py := min (⌊uv.2 * (h : ℝ)⌋.toNat) (h - 1)
  ((data.getD (py * w + px) 0 : ℕ) : ℝ) / 255

/-- The 2×2 depth texture of the scenario. -/
noncomputable def checkerDepth2x2 : Tex1 := sampleNearest depthValues2x2 2 2

/-! ## Helper: flat depth maps give zero edge strength -/

theorem bakeGradient_const (c : ℝ) (dep : Tex1) (res uv : ℝ × ℝ)
    (hdep : ∀ p, dep p = c) : bakeGradient dep res uv = 0 := by
  unfold bakeGradient
  simp only [hdep]
  norm_num [smoothstep, glslClamp]

/-! ## Claim theorems for the bake shader -/

/-- Claim C4: in the bake shader's blur branch (edge strength above the `0.1`
cutoff, render mode `0`), the output is exactly the specification's
Gaussian-falloff, `blurOffset`-biased weighted average: each of the 81 taps at
offsets `-4..4` per axis scaled by `edgeStrength * blurIntensity` texels is
weighted by `exp(-(dx²+dy²)/(2·16))` times `clamp(1 - blurOffset·sign(sampleDepth
- centerDepth), 0, 1)`, the accumulated color is normalized by the accumulated
weight, and a zero total weight would fall back to the unmodified source color. -/
theorem blur_branch_matches_spec (tex : Tex4) (dep : Tex1)
    (uBlurIntensity uBlurOffset : ℝ) (res uv : ℝ × ℝ)
    (hgrad : 0.1 < bakeGradient dep res uv) :
    bakeFragment tex dep uBlurIntensity uBlurOffset res 0 uv
      = some (specBlurResult tex dep uBlurOffset
          (bakeGradient dep res uv * uBlurIntensity) (1 / res.1) (1 / res.2) uv) := by
  have hW : ∀ p, specTapWeight dep uBlurOffset (bakeGradient dep res uv * uBlurIntensity)
      (1 / res.1) (1 / res.2) uv p
      = tapWeight dep uBlurOffset (bakeGradient dep res uv * uBlurIntensity)
          (1 / res.1) (1 / res.2) uv p := by
    intro p
    unfold specTapWeight tapWeight specGaussian specBias
    congr 2
    push_cast
    ring
  have hWf : specTapWeight dep uBlurOffset (bakeGradient dep res uv * uBlurIntensity)
      (1 / res.1) (1 / res.2) uv
      = tapWeight dep uBlurOffset (bakeGradient dep res uv * uBlurIntensity)
          (1 / res.1) (1 / res.2) uv := funext hW
  have h1 := one_le_blurLoop_snd tex dep uBlurOffset
    (bakeGradient dep res uv * uBlurIntensity) (1 / res.1) (1 / res.2) uv
  simp only [bakeFragment]
  rw [if_pos hgrad, if_pos trivial, if_pos (lt_of_lt_of_le one_pos h1)]
  have htot : (tapPairs.map (tapWeight dep uBlurOffset
      (bakeGradient dep res uv * uBlurIntensity) (1 / res.1) (1 / res.2) uv)).sum ≠ 0 := by
    have := one_le_blurLoop_snd tex dep uBlurOffset
      (bakeGradient dep res uv * uBlurIntensity) (1 / res.1) (1 / res.2) uv
    rw [blurLoop_eq] at this
    exact fun hz => by rw [hz] at this; norm_num at this
  simp only [specBlurResult, hWf]
  rw [if_neg htot, blurLoop_eq]

/-- Claim C9: the zero-total-weight fallback of the blur branch is unreachable.
The center tap `(0, 0)` samples the center pixel itself, so its depth
difference is zero, `sign(0) = 0` makes its bias term `1`, its Gaussian factor
is `exp(0) = 1`, and since every tap weight is nonnegative the total
accumulated weight is always at least `1 > 0`. -/
theorem blur_total_weight_at_least_one (tex : Tex4) (dep : Tex1)
    (uBlurOffset blurStrength pX pY : ℝ) (uv : ℝ × ℝ) :
    tapWeight dep uBlurOffset blurStrength pX pY uv (0, 0) = 1
      ∧ 1 ≤ (blurLoop tex dep uBlurOffset blurStrength pX pY uv).2
      ∧ 0 < (blurLoop tex dep uBlurOffset blurStrength pX pY uv).2 :=
  ⟨tapWeight_center dep uBlurOffset blurStrength pX pY uv,
   one_le_blurLoop_snd tex dep uBlurOffset blurStrength pX pY uv,
   lt_of_lt_of_le one_pos (one_le_blurLoop_snd tex dep uBlurOffset blurStrength pX pY uv)⟩

/-- Claim C6: at any pixel whose sampled neighborhood lies in a flat region of
the depth map (the four one-texel neighbor samples all read the same constant),
the computed edge strength is `0`, which never exceeds the `0.1` cutoff, and
the bake pass outputs the unmodified source color there, for every render mode
and every blur parameter setting. -/
theorem flat_depth_passthrough (c : ℝ) (tex : Tex4) (dep : Tex1)
    (uBlurIntensity uBlurOffset : ℝ) (res : ℝ × ℝ) (uRenderMode : ℤ) (uv : ℝ × ℝ)
    (hN : dep (uv.1, uv.2 + 1 / res.2) = c) (hS : dep (uv.1, uv.2 - 1 / res.2) = c)
    (hE : dep (uv.1 + 1 / res.1, uv.2) = c) (hW : dep (uv.1 - 1 / res.1, uv.2) = c) :
    bakeGradient dep res uv = 0
      ∧ bakeFragment tex dep uBlurIntensity uBlurOffset res uRenderMode uv = some (tex uv) := by
  have hg : bakeGradient dep res uv = 0 := by
    unfold bakeGradient
    simp only [hN, hS, hE, hW]
    norm_num [smoothstep, glslClamp]
  refine ⟨hg, ?_⟩
  simp only [bakeFragment]
  rw [if_neg]
  rw [hg]
  norm_num

/-- Witness for C6 at a concrete constant depth map. -/
theorem flat_depth_passthrough_witness :
    bakeGradient (fun _ => (1 : ℝ) / 2) (4, 4) (0, 0) = 0
      ∧ bakeFragment whiteTex (fun _ => (1 : ℝ) / 2) 5 1 (4, 4) 0 (0, 0)
          = some (whiteTex (0, 0)) :=
  flat_depth_passthrough ((1 : ℝ) / 2) whiteTex (fun _ => (1 : ℝ) / 2) 5 1 (4, 4) 0 (0, 0)
    rfl rfl rfl rfl

/-- Claim C5: baking the 2×2 all-white color image against the 2×2 depth map
`[0, 255, 0, 255]` with blur intensity `0` in blur mode yields the unmodified
(all-white) color image at every pixel: all blur-strength-scaled offsets
degenerate, every tap reads the white source, and the normalized result is the
source color. -/
theorem bake_white_2x2_intensity_zero (uv : ℝ × ℝ) (uBlurOffset : ℝ) :
    bakeFragment whiteTex checkerDepth2x2 0 uBlurOffset (2, 2) 0 uv
      = some ⟨1, 1, 1, 1⟩ := by
  by_cases hg : 0.1 < bakeGradient checkerDepth2x2 (2, 2) uv
  · have h1 := one_le_blurLoop_snd whiteTex checkerDepth2x2 uBlurOffset
      (bakeGradient checkerDepth2x2 (2, 2) uv * 0) (1 / (2 : ℝ)) (1 / (2 : ℝ)) uv
    have htot1 : 1 ≤ (tapPairs.map (tapWeight checkerDepth2x2 uBlurOffset
        (bakeGradient checkerDepth2x2 (2, 2) uv * 0) (1 / (2 : ℝ)) (1 / (2 : ℝ)) uv)).sum := by
      rw [blurLoop_eq] at h1
      exact h1
    have htot : (tapPairs.map (tapWeight checkerDepth2x2 uBlurOffset
        (bakeGradient checkerDepth2x2 (2, 2) uv * 0) (1 / (2 : ℝ)) (1 / (2 : ℝ)) uv)).sum ≠ 0 := by
      intro hz
      rw [hz] at htot1
      norm_num at htot1
    simp only [bakeFragment]
    rw [if_pos hg, if_pos trivial, if_pos (lt_of_lt_of_le one_pos h1), blurLoop_eq]
    simp only [whiteTex]
    rw [v4sum_map_scale, v4scale_scale, one_div, inv_mul_cancel₀ htot, v4scale_one]
  · simp only [bakeFragment]
    rw [if_neg hg]
    rfl

/-- Witness for C4 at a concrete depth ramp whose edge strength is `1 > 0.1`. -/
theorem blur_branch_matches_spec_witness :
    0.1 < bakeGradient (fun uv => uv.1) (1, 1) (0, 0)
      ∧ bakeFragment whiteTex (fun uv => uv.1) 1 (1 / 4) (1, 1) 0 (0, 0)
          = some (specBlurResult whiteTex (fun uv => uv.1) (1 / 4)
              (bakeGradient (fun uv => uv.1) (1, 1) (0, 0) * 1)
              (1 / ((1 : ℝ), (1 : ℝ)).1) (1 / ((1 : ℝ), (1 : ℝ)).2) (0, 0)) := by
  have hg : bakeGradient (fun uv : ℝ × ℝ => uv.1) (1, 1) (0, 0) = 1 := by
    unfold bakeGradient
    norm_num
    rw [show (4 : ℝ) = 2 ^ 2 by norm_num, Real.sqrt_sq (by norm_num : (0 : ℝ) ≤ 2)]
    unfold smoothstep glslClamp
    norm_num
  exact ⟨by rw [hg]; norm_num,
    blur_branch_matches_spec whiteTex (fun uv => uv.1) 1 (1 / 4) (1, 1) (0, 0)
      (by rw [hg]; norm_num)⟩

/-! ## Clamp facts for the interaction controller -/

theorem abs_threeClamp_le (x M : ℝ) (hM : 0 ≤ M) : |threeClamp x (-M) M| ≤ M := by
  unfold threeClamp
  rw [abs_le]
  exact ⟨le_max_left _ _, max_le (by linarith) (min_le_left _ _)⟩

theorem threeClamp_of_gt (x M : ℝ) (hM : 0 ≤ M) (h : M < x) : threeClamp x (-M) M = M := by
  unfold threeClamp
  rw [min_eq_left h.le, max_eq_right (by linarith)]

theorem threeClamp_of_lt (x M : ℝ) (h : x < -M) : threeClamp x (-M) M = -M := by
  unfold threeClamp
  exact max_eq_left (le_trans (min_le_right M x) h.le)

theorem degToRad_nonneg (L : ℝ) (hL : 0 ≤ L) : 0 ≤ degToRad L :=
  mul_nonneg hL (div_nonneg Real.pi_pos.le (by norm_num))

theorem onPointerMove_active (maxAngle clientX clientY : ℝ) (s : PointerState) :
    onPointerMove true true false maxAngle clientX clientY s
      = { rotY := threeClamp (s.rotY + (clientX - s.prevX) * 0.005) (-maxAngle) maxAngle
          rotX := threeClamp (s.rotX + (clientY - s.prevY) * 0.005) (-maxAngle) maxAngle
          prevX := clientX
          prevY := clientY } := by
  simp [onPointerMove]

theorem handleDeviceOrientation_active (maxAngle b g : ℝ) (hb : b ≠ 0) (hg : g ≠ 0)
    (s : OrientState) :
    ∃ init1 init2 : ℝ, handleDeviceOrientation true maxAngle (some b) (some g) s
      = { initBeta := some init1
          initGamma := some init2
          rotX := threeClamp (degToRad ((b - init1) * (-0.5))) (-maxAngle) maxAngle
          rotY := threeClamp (degToRad ((g - init2) * (-0.5))) (-maxAngle) maxAngle } := by
  unfold handleDeviceOrientation
  rw [if_neg (by simp [jsFalsy, hb, hg])]
  cases hib : s.initBeta with
  | none =>
      cases hig : s.initGamma with
      | none => exact ⟨b, g, by simp [hib, hig]⟩
      | some ig => exact ⟨b, g, by simp [hib, hig]⟩
  | some ib =>
      cases hig : s.initGamma with
      | none => exact ⟨b, g, by simp [hib, hig]⟩
      | some ig => exact ⟨ib, ig, by simp [hib, hig]⟩

/-! ## Claim theorems for the interaction controller -/

/-- Claim C2: after every effective rotation update — a pointer-drag move event
(dragging, mesh present, sensor off) or a device-orientation reading with
non-falsy readings — both rotation angles are bounded in magnitude by the
view-angle limit converted to radians, and a pointer delta that would overshoot
clamps exactly to the limit, never beyond; the device-orientation update with a
captured reference likewise clamps exactly on overshoot. -/
theorem rotation_clamped_to_view_angle_limit (L clientX clientY : ℝ) (hL : 0 ≤ L)
    (s : PointerState) (os : OrientState) (b g : ℝ) (hb : b ≠ 0) (hg : g ≠ 0)
    (ib ig rx0 ry0 : ℝ) :
    (|(onPointerMove true true false (degToRad L) clientX clientY s).rotX| ≤ degToRad L
      ∧ |(onPointerMove true true false (degToRad L) clientX clientY s).rotY| ≤ degToRad L)
    ∧ (|(handleDeviceOrientation true (degToRad L) (some b) (some g) os).rotX| ≤ degToRad L
      ∧ |(handleDeviceOrientation true (degToRad L) (some b) (some g) os).rotY| ≤ degToRad L)
    ∧ (degToRad L < s.rotY + (clientX - s.prevX) * 0.005 →
        (onPointerMove true true false (degToRad L) clientX clientY s).rotY = degToRad L)
    ∧ (s.rotY + (clientX - s.prevX) * 0.005 < -degToRad L →
        (onPointerMove true true false (degToRad L) clientX clientY s).rotY = -degToRad L)
    ∧ (degToRad L < s.rotX + (clientY - s.prevY) * 0.005 →
        (onPointerMove true true false (degToRad L) clientX clientY s).rotX = degToRad L)
    ∧ (s.rotX + (clientY - s.prevY) * 0.005 < -degToRad L →
        (onPointerMove true true false (degToRad L) clientX clientY s).rotX = -degToRad L)
    ∧ (degToRad L < degToRad ((b - ib) * (-0.5)) →
        (handleDeviceOrientation true (degToRad L) (some b) (some g)
          ⟨some ib, some ig, rx0, ry0⟩).rotX = degToRad L)
    ∧ (degToRad ((g - ig) * (-0.5)) < -degToRad L →
        (handleDeviceOrientation true (degToRad L) (some b) (some g)
          ⟨some ib, some ig, rx0, ry0⟩).rotY = -degToRad L) := by
  have hM := degToRad_nonneg L hL
  obtain ⟨i1, i2, heq⟩ := handleDeviceOrientation_active (degToRad L) b g hb hg os
  obtain ⟨j1, j2, heq2⟩ :=
    handleDeviceOrientation_active (degToRad L) b g hb hg ⟨some ib, some ig, rx0, ry0⟩
  have hj : j1 = ib ∧ j2 = ig := by
    have h0 := heq2
    unfold handleDeviceOrientation at h0
    rw [if_neg (by simp [jsFalsy, hb, hg])] at h0
    simp only [OrientState.mk.injEq] at h0
    refine ⟨?_, ?_⟩
    · injection h0.1 with h1; exact h1.symm
    · injection h0.2.1 with h2; exact h2.symm
  obtain ⟨hj1, hj2⟩ := hj
  subst hj1
  subst hj2
  refine ⟨⟨?_, ?_⟩, ⟨?_, ?_⟩, ?_, ?_, ?_, ?_, ?_, ?_⟩
  · rw [onPointerMove_active]; exact abs_threeClamp_le _ _ hM
  · rw [onPointerMove_active]; exact abs_threeClamp_le _ _ hM
  · rw [heq]; exact abs_threeClamp_le _ _ hM
  · rw [heq]; exact abs_threeClamp_le _ _ hM
  · intro h; rw [onPointerMove_active]; exact threeClamp_of_gt _ _ hM h
  · intro h; rw [onPointerMove_active]; exact threeClamp_of_lt _ _ h
  · intro h; rw [onPointerMove_active]; exact threeClamp_of_gt _ _ hM h
  · intro h; rw [onPointerMove_active]; exact threeClamp_of_lt _ _ h
  · intro h; rw [heq2]; exact threeClamp_of_gt _ _ hM h
  · intro h; rw [heq2]; exact threeClamp_of_lt _ _ h

/-- Claim C10: a device-orientation reading whose `beta` or `gamma` is `null`
or exactly `0` is ignored entirely — the handler tests the raw values for
JavaScript falsiness, so neither rotation angle is updated and the
zero-reference reading is neither captured nor overwritten. -/
theorem falsy_orientation_reading_ignored (meshPresent : Bool) (maxAngle : ℝ)
    (eventBeta eventGamma : Option ℝ) (s : OrientState)
    (h : jsFalsy eventBeta ∨ jsFalsy eventGamma) :
    handleDeviceOrientation meshPresent maxAngle eventBeta eventGamma s = s := by
  unfold handleDeviceOrientation
  rcases h with h | h
  · rw [if_pos (by simp [decide_eq_true h])]
  · rw [if_pos (by simp [decide_eq_true h])]

/-- Witness for C10: a reading with `beta = 0` (and a fresh state) leaves the
state untouched. -/
theorem falsy_orientation_reading_ignored_witness :
    handleDeviceOrientation true 1 (some 0) (some 5) ⟨none, none, 3 / 10, 2 / 5⟩
      = ⟨none, none, 3 / 10, 2 / 5⟩ :=
  falsy_orientation_reading_ignored true 1 (some 0) (some 5) ⟨none, none, 3 / 10, 2 / 5⟩
    (Or.inl (Or.inr rfl))

/-- Witness for C2 at concrete inputs (limit 45°, a drag event and a sensor
reading with nonzero values). -/
theorem rotation_clamped_to_view_angle_limit_witness :
    (|(onPointerMove true true false (degToRad 45) 100 200 ⟨0, 0, 0, 0⟩).rotX| ≤ degToRad 45
      ∧ |(onPointerMove true true false (degToRad 45) 100 200 ⟨0, 0, 0, 0⟩).rotY| ≤ degToRad 45)
    ∧ (|(handleDeviceOrientation true (degToRad 45) (some 10) (some 20)
          ⟨none, none, 0, 0⟩).rotX| ≤ degToRad 45
      ∧ |(handleDeviceOrientation true (degToRad 45) (some 10) (some 20)
          ⟨none, none, 0, 0⟩).rotY| ≤ degToRad 45)
    ∧ (degToRad 45 < (0 : ℝ) + (100 - 0) * 0.005 →
        (onPointerMove true true false (degToRad 45) 100 200 ⟨0, 0, 0, 0⟩).rotY = degToRad 45)
    ∧ ((0 : ℝ) + (100 - 0) * 0.005 < -degToRad 45 →
        (onPointerMove true true false (degToRad 45) 100 200 ⟨0, 0, 0, 0⟩).rotY = -degToRad 45)
    ∧ (degToRad 45 < (0 : ℝ) + (200 - 0) * 0.005 →
        (onPointerMove true true false (degToRad 45) 100 200 ⟨0, 0, 0, 0⟩).rotX = degToRad 45)
    ∧ ((0 : ℝ) + (200 - 0) * 0.005 < -degToRad 45 →
        (onPointerMove true true false (degToRad 45) 100 200 ⟨0, 0, 0, 0⟩).rotX = -degToRad 45)
    ∧ (degToRad 45 < degToRad (((10 : ℝ) - 1) * (-0.5)) →
        (handleDeviceOrientation true (degToRad 45) (some 10) (some 20)
          ⟨some 1, some 2, 0, 0⟩).rotX = degToRad 45)
    ∧ (degToRad (((20 : ℝ) - 2) * (-0.5)) < -degToRad 45 →
        (handleDeviceOrientation true (degToRad 45) (some 10) (some 20)
          ⟨some 1, some 2, 0, 0⟩).rotY = -degToRad 45) :=
  rotation_clamped_to_view_angle_limit 45 100 200 (by norm_num) ⟨0, 0, 0, 0⟩
    ⟨none, none, 0, 0⟩ 10 20 (by norm_num) (by norm_num) 1 2 0 0

/-! ## Claim theorem for the export CPU displacement -/

/-- Claim C7: the export path's CPU displacement writes, for every vertex,
`originalZ + depthSample/255 * depthMultiplier`, where `depthSample` is the
depth-map byte selected by flooring the scaled UV coordinates
(`displaceVertexZ` transcribes that lookup); consequently for a depth image all
of whose bytes equal `vv`, every exported vertex's new Z is its original Z plus
`vv/255 * depthMultiplier`. -/
theorem export_displacement_uniform (data : ℕ → ℕ) (vv : ℕ) (dW dH : ℕ)
    (depthMultiplier : ℝ) (verts : List (ℝ × ℝ × ℝ)) (hdata : ∀ i, data i = vv) :
    exportDisplace data dW dH depthMultiplier verts
      = verts.map fun t => t.1 + (vv : ℝ) / 255 * depthMultiplier := by
  unfold exportDisplace
  refine List.map_congr_left fun t _ => ?_
  unfold displaceVertexZ
  simp only [hdata]

/-- Witness for C7: a uniform depth image of byte value `128`. -/
theorem export_displacement_uniform_witness :
    exportDisplace (fun _ => 128) 4 4 2 [((0 : ℝ), (0 : ℝ), (0 : ℝ)), (1 / 2, 1 / 3, 2 / 3)]
      = [(0 : ℝ) + (128 : ℕ) / 255 * 2, (1 / 2 : ℝ) + (128 : ℕ) / 255 * 2] := by
  rw [export_displacement_uniform (fun _ => 128) 128 4 4 2
    [((0 : ℝ), (0 : ℝ), (0 : ℝ)), (1 / 2, 1 / 3, 2 / 3)] (fun _ => rfl)]
  rfl

/-! ## Claim theorem for the bake recomputation policy -/

/-- Claim C8: a props commit re-runs the bake pass exactly when blur intensity,
blur offset, or render mode changed — the bake counter increments and the baked
contents become those of the new uniforms; a commit changing only camera
parameters, mesh resolution, or anything else leaves the bake counter and the
baked texture's contents unchanged; rotation updates never touch them. -/
theorem bake_rerun_policy (old new old2 new2 : Params) (s s2 : SceneState)
    (hchange : old.blurIntensity ≠ new.blurIntensity ∨ old.blurOffset ≠ new.blurOffset
      ∨ old.renderMode ≠ new.renderMode)
    (hs1 : old2.blurIntensity = new2.blurIntensity)
    (hs2 : old2.blurOffset = new2.blurOffset)
    (hs3 : old2.renderMode = new2.renderMode)
    (rx ry : ℚ) :
    ((applyParamChange old new s).bakeCount = s.bakeCount + 1
      ∧ (applyParamChange old new s).baked
          = ⟨new.blurIntensity, new.blurOffset, new.renderMode⟩)
    ∧ ((applyParamChange old2 new2 s2).bakeCount = s2.bakeCount
      ∧ (applyParamChange old2 new2 s2).baked = s2.baked)
    ∧ ((applyRotation s2 rx ry).bakeCount = s2.bakeCount
      ∧ (applyRotation s2 rx ry).baked = s2.baked) := by
  have hu : ∀ o n t, ((effectUniforms o n t).bakeCount = t.bakeCount
      ∧ (effectUniforms o n t).baked = t.baked
      ∧ (effectUniforms o n t).uBlurIntensity = t.uBlurIntensity
      ∧ (effectUniforms o n t).uBlurOffset = t.uBlurOffset
      ∧ (effectUniforms o n t).uRenderMode = t.uRenderMode) := by
    intro o n t
    unfold effectUniforms
    split_ifs <;> simp
  have hm : ∀ o n t, ((effectMeshDetail o n t).bakeCount = t.bakeCount
      ∧ (effectMeshDetail o n t).baked = t.baked
      ∧ (effectMeshDetail o n t).uBlurIntensity = t.uBlurIntensity
      ∧ (effectMeshDetail o n t).uBlurOffset = t.uBlurOffset
      ∧ (effectMeshDetail o n t).uRenderMode = t.uRenderMode) := by
    intro o n t
    unfold effectMeshDetail
    split_ifs <;> simp
  have hc : ∀ o n t, ((effectCameraType o n t).bakeCount = t.bakeCount
      ∧ (effectCameraType o n t).baked = t.baked) := by
    intro o n t
    unfold effectCameraType
    split_ifs <;> simp
  refine ⟨?_, ?_, by simp [applyRotation]⟩
  · unfold applyParamChange
    have hb : ∀ t : SceneState, (effectBake old new t).bakeCount = t.bakeCount + 1
        ∧ (effectBake old new t).baked = ⟨new.blurIntensity, new.blurOffset, new.renderMode⟩ := by
      intro t
      unfold effectBake runBakePass
      rw [if_pos hchange]
      simp
    refine ⟨?_, ?_⟩
    · rw [(hc _ _ _).1, (hb _).1, (hm _ _ _).1, (hu _ _ _).1]
    · rw [(hc _ _ _).2, (hb _).2]
  · unfold applyParamChange
    have hb : ∀ t : SceneState, effectBake old2 new2 t = t := by
      intro t
      unfold effectBake
      rw [if_neg]
      simp [hs1, hs2, hs3]
    refine ⟨?_, ?_⟩
    · rw [(hc _ _ _).1, hb, (hm _ _ _).1, (hu _ _ _).1]
    · rw [(hc _ _ _).2, hb, (hm _ _ _).2.1, (hu _ _ _).2.1]

/-- Witness for C8: a blur-intensity change re-bakes; a camera/mesh-resolution
change does not and preserves the baked contents; a rotation update does not. -/
theorem bake_rerun_policy_witness :
    ((applyParamChange ⟨1, 4, 1, 256, 5, 0, .blur, .perspective⟩
        ⟨1, 4, 1, 256, 7, 0, .blur, .perspective⟩
        ⟨1, 4, 1, .perspective, 256, 5, 0, .blur, ⟨5, 0, .blur⟩, 3, 0, 0⟩).bakeCount
        = (⟨1, 4, 1, .perspective, 256, 5, 0, .blur, ⟨5, 0, .blur⟩, 3, 0, 0⟩
            : SceneState).bakeCount + 1
      ∧ (applyParamChange ⟨1, 4, 1, 256, 5, 0, .blur, .perspective⟩
          ⟨1, 4, 1, 256, 7, 0, .blur, .perspective⟩
          ⟨1, 4, 1, .perspective, 256, 5, 0, .blur, ⟨5, 0, .blur⟩, 3, 0, 0⟩).baked
          = ⟨7, 0, .blur⟩)
    ∧ ((applyParamChange ⟨1, 4, 1, 256, 5, 0, .blur, .perspective⟩
          ⟨1, 6, 2, 512, 5, 0, .blur, .orthographic⟩
          ⟨1, 4, 1, .perspective, 256, 5, 0, .blur, ⟨5, 0, .blur⟩, 3, 0, 0⟩).bakeCount
          = (⟨1, 4, 1, .perspective, 256, 5, 0, .blur, ⟨5, 0, .blur⟩, 3, 0, 0⟩
              : SceneState).bakeCount
      ∧ (applyParamChange ⟨1, 4, 1, 256, 5, 0, .blur, .perspective⟩
          ⟨1, 6, 2, 512, 5, 0, .blur, .orthographic⟩
          ⟨1, 4, 1, .perspective, 256, 5, 0, .blur, ⟨5, 0, .blur⟩, 3, 0, 0⟩).baked
          = (⟨1, 4, 1, .perspective, 256, 5, 0, .blur, ⟨5, 0, .blur⟩, 3, 0, 0⟩
              : SceneState).baked)
    ∧ ((applyRotation ⟨1, 4, 1, .perspective, 256, 5, 0, .blur, ⟨5, 0, .blur⟩, 3, 0, 0⟩
          (1 / 4) (1 / 8)).bakeCount
          = (⟨1, 4, 1, .perspective, 256, 5, 0, .blur, ⟨5, 0, .blur⟩, 3, 0, 0⟩
              : SceneState).bakeCount
      ∧ (applyRotation ⟨1, 4, 1, .perspective, 256, 5, 0, .blur, ⟨5, 0, .blur⟩, 3, 0, 0⟩
          (1 / 4) (1 / 8)).baked
          = (⟨1, 4, 1, .perspective, 256, 5, 0, .blur, ⟨5, 0, .blur⟩, 3, 0, 0⟩
              : SceneState).baked) :=
  bake_rerun_policy ⟨1, 4, 1, 256, 5, 0, .blur, .perspective⟩
    ⟨1, 4, 1, 256, 7, 0, .blur, .perspective⟩
    ⟨1, 4, 1, 256, 5, 0, .blur, .perspective⟩
    ⟨1, 6, 2, 512, 5, 0, .blur, .orthographic⟩
    ⟨1, 4, 1, .perspective, 256, 5, 0, .blur, ⟨5, 0, .blur⟩, 3, 0, 0⟩
    ⟨1, 4, 1, .perspective, 256, 5, 0, .blur, ⟨5, 0, .blur⟩, 3, 0, 0⟩
    (Or.inl (by norm_num)) rfl rfl rfl (1 / 4) (1 / 8)

/-! ## Claim theorems for the export control flow -/

/-- Counterexample to C1 as stated: with a fully initialized scene, render mode
`fill`, and format `glb`, the export is not rejected — it resolves — and the
temporary render target is allocated, so GPU work is attempted. -/
theorem export_fill_mode_not_rejected :
    (handleExport allRefs "glb" RenderMode.fill none).outcome = ExpOutcome.resolved
      ∧ ExpResource.tempRenderTarget ∈ (handleExport allRefs "glb" RenderMode.fill none).allocated := by
  decide

/-- Claim C1 (amended): the export guard rejects with the message
"Export is not ready or format is not supported." exactly when one of the five
scene refs is absent or the requested format is not `glb`, and such a rejection
allocates nothing; the render mode is never consulted — with a ready scene and
format `glb`, the export proceeds (it is not rejected early) and allocates the
temporary render target, also when the render mode is `fill`. -/
theorem export_guard_characterization (refs : SceneRefs) (format : String)
    (renderMode : RenderMode) (failAt : Option ExpStep) :
    (((!refs.mesh || !refs.renderer || !refs.scene || !refs.camera || !refs.bakedTarget
          || format ≠ "glb" : Bool) = true) →
      handleExport refs format renderMode failAt
        = ⟨.rejectedEarly "Export is not ready or format is not supported.", [], []⟩)
    ∧ (((!refs.mesh || !refs.renderer || !refs.scene || !refs.camera || !refs.bakedTarget
          || format ≠ "glb" : Bool) = false) →
        ExpResource.tempRenderTarget ∈ (handleExport refs format renderMode failAt).allocated
          ∧ ∀ msg, (handleExport refs format renderMode failAt).outcome
              ≠ ExpOutcome.rejectedEarly msg) := by
  constructor
  · intro h
    unfold handleExport
    rw [if_pos h]
  · intro h
    unfold handleExport
    rw [if_neg (by rw [h]; simp)]
    split_ifs <;> simp

/-- Witness for the amended C1: a missing mesh ref rejects early and allocates
nothing; a ready scene in `fill` mode proceeds and allocates the render target. -/
theorem export_guard_characterization_witness :
    handleExport ⟨false, true, true, true, true⟩ "glb" RenderMode.blur none
        = ⟨.rejectedEarly "Export is not ready or format is not supported.", [], []⟩
      ∧ (ExpResource.tempRenderTarget ∈ (handleExport allRefs "glb" RenderMode.fill none).allocated
          ∧ ∀ msg, (handleExport allRefs "glb" RenderMode.fill none).outcome
              ≠ ExpOutcome.rejectedEarly msg) :=
  ⟨(export_guard_characterization ⟨false, true, true, true, true⟩ "glb" RenderMode.blur none).1 rfl,
   (export_guard_characterization allRefs "glb" RenderMode.fill none).2 rfl⟩

/-- Counterexample to C3 as stated: when the depth-image load fails, the
rejection propagates while the temporary render target — created before the
load and disposed only later, after the pixel readback — is still undisposed. -/
theorem export_depth_load_failure_leaks :
    (handleExport allRefs "glb" RenderMode.blur (some .depthLoad)).outcome
        = ExpOutcome.rejected "depth image load failed"
      ∧ leakedResources (handleExport allRefs "glb" RenderMode.blur (some .depthLoad))
          = [ExpResource.tempRenderTarget] := by
  decide

/-- Claim C3 (amended): the exporter-parse failure path (like the success path)
disposes every temporary resource before the rejection propagates, but the two
earlier failure paths do not: a depth-image-load failure leaks the temporary
render target, and a 2D-context failure leaks the temporary render target and
the cloned geometry. -/
theorem export_disposal_by_failure_path (renderMode : RenderMode) :
    leakedResources (handleExport allRefs "glb" renderMode (some .exporterParse)) = []
      ∧ leakedResources (handleExport allRefs "glb" renderMode none) = []
      ∧ leakedResources (handleExport allRefs "glb" renderMode (some .depthLoad))
          = [ExpResource.tempRenderTarget]
      ∧ leakedResources (handleExport allRefs "glb" renderMode (some .canvas2d))
          = [ExpResource.tempRenderTarget, ExpResource.clonedGeometry] := by
  cases renderMode <;> decide

end DepthWeaver
